import Mathlib

/-!
Shallow embedding of `src/sigpyproc/sig_calc.py` (functions `dep_from_p` and
`mat_to_py_time`).

Modelling conventions:
- Python floats are modelled as rationals (`ℚ`); the arithmetic expressions are
  translated verbatim, float rounding is elided.
- Arrays over the (TIME, SAMPLE) grid are modelled as functions
  `Nat → Nat → ℚ`; all array operations in the source are elementwise
  broadcasts, which the pointwise definitions mirror.
- The xarray `Dataset` is modelled as a structure of the fields the routine
  reads or writes, each optional field as an `Option` (`hasattr` becomes
  `Option.isSome`; the `DX.lat == None` sentinel test and an absent `lat`
  field are both `none`, following the data model in which `lat` is an
  optional scalar).  Any other pre-existing field is kept in `extra`, which
  the routine never touches.
- The external library call `gsw.grav(lat, 0)` is an opaque collaborator: the
  embedding is parametrised over a function `grav : ℚ → ℚ → ℚ`.
- The interactive terminal is modelled by a list of operator input lines
  consumed in order by `input()`.  Prompt/warning text printed to the
  terminal carries no dataset effect and is elided, with one exception that
  cannot be elided: the error echo of the density prompt loop evaluates the
  variable `user_input_abort`, which is assigned only inside the
  atmospheric-pressure fallback branch; when that branch did not run, Python
  raises `UnboundLocalError` there.  The echo is therefore modelled by its
  effect: it needs the last atmospheric prompt input (an `Option String`),
  and faults with `RunError.nameError` when that is unavailable.
- A `raise` is modelled by an error outcome; since the dataset is mutated in
  place, the result carries the dataset state reached at the raise point.
-/

/-- An array over the (TIME, SAMPLE) grid, as a function of the two indices. -/
def Arr : Type := Nat → Nat → ℚ

/-- The scalar field `DX['g'] = ((), g, {'units': ..., 'note': ...})`. -/
structure ScalarField where
  data : ℚ
  units : String
  note : String
  deriving DecidableEq

/-- The array field
`DX['depth'] = (('TIME','SAMPLE'), depth, {'units': ..., 'long_name': ..., 'note': ...})`. -/
structure ArrayField where
  data : Arr
  units : String
  long_name : String
  note : String

/-- The xarray Dataset, restricted to the fields `dep_from_p` reads or
writes.  `extra` stands for every other pre-existing field of the dataset;
the routine never reads or writes it. -/
structure Dataset where
  Average_AltimeterPressure : Arr
  pressure_offset : ℚ
  p_atmo : Option Arr
  lat : Option ℚ
  rho_ocean : Option Arr
  g : Option ScalarField
  depth : Option ArrayField
  extra : String → Option ℚ

/-- The ways a call can terminate abnormally (Python exceptions). -/
inductive RunError where
  /-- `Exception('No "lat" field in the dataset. ...')` -/
  | missingLat
  /-- `Exception('ABORTED BY USER (MISSING ATMOSPHERIC PRESSURE)')` -/
  | userAbortedAtm
  /-- `Exception('ABORTED BY USER (MISSING OCEAN DENSITY)')` -/
  | userAbortedRho
  /-- `UnboundLocalError`: the density prompt loop echoes `user_input_abort`,
  which was never assigned on paths where the atmospheric prompt did not run. -/
  | nameError
  /-- `EOFError`: `input()` called with no operator input left. -/
  | eofError
  deriving DecidableEq

/-- Result of a call: `err = none` means the function returned normally;
`DX` is the final state of the in-place-mutated dataset in either case. -/
structure RunResult where
  err : Option RunError
  DX : Dataset

/-- Embeds Python `str.upper()`: uppercases every character of the string. -/
def upperStr (s : String) : String := String.mk (s.data.map Char.toUpper)

/-- Zero-left-pads the decimal rendering of `n` to `width` digits. -/
def natPad (n width : Nat) : String :=
  let s := toString n
  String.mk (List.replicate (width - s.length) '0') ++ s

/-- Embeds Python `'%.<prec>f' % q` fixed-point formatting of a number
(rounding to nearest, halves away from zero; the float rounding-mode detail
is immaterial to the properties proved here). -/
def formatFixed (prec : Nat) (q : ℚ) : String :=
  let sign := if q < 0 then "-" else ""
  let n := q.num.natAbs
  let d := q.den
  let scaled := (2 * n * 10 ^ prec + d) / (2 * d)
  sign ++ toString (scaled / 10 ^ prec) ++ "." ++ natPad (scaled % 10 ^ prec) prec

/-- Embeds the atmospheric-pressure prompt loop:
`user_input_abort = input(warn_str1).upper()` followed by
`while user_input_abort not in ['A','C']: ... input(...).upper()`.
Returns the accepted (uppercased) choice and the remaining operator input;
`eofError` if the input is exhausted first.  The error echo in this loop
prints the current (assigned) input line and cannot fault. -/
def promptAC : List String → Except RunError (String × List String)
  | [] => .error .eofError
  | s :: rest =>
      let u := upperStr s
      if u = "A" ∨ u = "C" then .ok (u, rest) else promptAC rest

/-- Embeds the density prompt loop:
`user_input_abort_dense = input(...).upper()` followed by
`while user_input_abort_dense not in ['A','C']:` whose error echo is
`print('Input ("%s") not recognized.' % user_input_abort)` — note it
evaluates `user_input_abort`, the variable of the *atmospheric* prompt.
`atmInput` is that variable: `some` of the last atmospheric prompt input
when that prompt ran, `none` when it did not (in which case evaluating the
echo raises `UnboundLocalError`, here `nameError`). -/
def promptRho (atmInput : Option String) : List String → Except RunError (String × List String)
  | [] => .error .eofError
  | s :: rest =>
      let u := upperStr s
      if u = "A" ∨ u = "C" then .ok (u, rest)
      else
        match atmInput with
        | none => .error .nameError
        | some _ => promptRho atmInput rest

/-- The fixed header of the provenance note (`note_str` initial value). -/
def noteHeader : String :=
  "Altimeter depth calculated from pressure (*Average_AltimeterPressure* field) as:\n\n     depth = p/(g*rho)\n"

/-- Note bullet appended when `p_atmo` is present. -/
def noteAtmo : String := "\n- Atmospheric pressure (*p_atmo* field subtracted)."

/-- Note bullet appended on the uncorrected fallback, including the numeric
`pressure_offset` (`'... offset %.2f db)' % DX.pressure_offset`). -/
def noteNoAtmo (off : ℚ) : String :=
  "\n- !!! NO TIME_VARYING ATMOSPHERIC CORRECTION APPLIED !!!\n  (using default atmospheric pressure offset " ++ formatFixed 2 off ++ " db)"

/-- Note bullet recording the computed gravity
(`'\n- Using g=%.4f ms-2 (calculated using gsw.grav())' % g`). -/
def noteG (g : ℚ) : String :=
  "\n- Using g=" ++ formatFixed 4 g ++ " ms-2 (calculated using gsw.grav())"

/-- Metadata note of the `g` field
(`'Calculated using gsw.grav() for p=0 and lat=%.2f' % DX.lat`). -/
def gFieldNote (lat : ℚ) : String :=
  "Calculated using gsw.grav() for p=0 and lat=" ++ formatFixed 2 lat

/-- Note bullet when the `rho_ocean` field is used. -/
def noteRhoField : String := "\n- Using ocean density from the *rho_ocean* field."

/-- Note bullet when the fixed fallback density is used. -/
def noteRhoFixed : String := "\n- Using FIXED ocean density rho = 1027 kg m-3."

/-- Final step of `dep_from_p`: `depth = 1e4*p_ocean/g/rho_ocean` and
`DX['depth'] = (('TIME','SAMPLE'), depth, {...})`, then `return DX`. -/
def depFinish (DX : Dataset) (p_ocean : Arr) (g : ℚ) (rho : Arr) (note : String) : RunResult :=
  let depth : Arr := fun t s => 10000 * p_ocean t s / g / rho t s
  ⟨none, { DX with depth := some ⟨depth, "m", "Transducer depth", note⟩ }⟩

/-- The part of `dep_from_p` from the `if DX.lat==None` check onward:
gravity computation and `DX['g']` assignment, density resolution, depth.
`atmInput` is the `user_input_abort` variable state (see `promptRho`). -/
def depAfterAtm (grav : ℚ → ℚ → ℚ) (stdin : List String) (DX : Dataset)
    (p_ocean : Arr) (note : String) (atmInput : Option String) : RunResult :=
  match DX.lat with
  | none => ⟨some .missingLat, DX⟩
  | some lat =>
      let g := grav lat 0
      let DX1 := { DX with g := some ⟨g, "ms-2", gFieldNote lat⟩ }
      let note := note ++ noteG g
      match DX1.rho_ocean with
      | some rho => depFinish DX1 p_ocean g rho (note ++ noteRhoField)
      | none =>
          match promptRho atmInput stdin with
          | .error e => ⟨some e, DX1⟩
          | .ok (u, _) =>
              if u = "A" then ⟨some .userAbortedRho, DX1⟩
              else depFinish DX1 p_ocean g (fun _ _ => 1027) (note ++ noteRhoFixed)

/-- Embeds `dep_from_p(DX)`.  `grav` is the external `gsw.grav`; `stdin` is
the sequence of operator input lines available to `input()`. -/
def dep_from_p (grav : ℚ → ℚ → ℚ) (stdin : List String) (DX : Dataset) : RunResult :=
  let p_abs : Arr := fun t s => DX.Average_AltimeterPressure t s + DX.pressure_offset
  match DX.p_atmo with
  | some pa =>
      let p_ocean : Arr := fun t s => p_abs t s - pa t s
      depAfterAtm grav stdin DX p_ocean (noteHeader ++ noteAtmo) none
  | none =>
      match promptAC stdin with
      | .error e => ⟨some e, DX⟩
      | .ok (u, rest) =>
          if u = "A" then ⟨some .userAbortedAtm, DX⟩
          else
            depAfterAtm grav rest DX DX.Average_AltimeterPressure
              (noteHeader ++ noteNoAtmo DX.pressure_offset) (some u)

/-- Embeds `mat_to_py_time(mattime)`: `mpltime = mattime - 719529.0`. -/
def mat_to_py_time (mattime : ℚ) : ℚ :=
  mattime - 719529

/-! Sample data used by witnesses and counterexamples. -/

/-- A concrete gravity function standing in for `gsw.grav` in witnesses. -/
def gravSample : ℚ → ℚ → ℚ := fun lat _p => 49/5 + lat / 1000

/-- A fully populated sample dataset (all optional fields present). -/
def DXfull : Dataset where
  Average_AltimeterPressure := fun _ _ => 10
  pressure_offset := 1/10
  p_atmo := some (fun _ _ => 1/20)
  lat := some 60
  rho_ocean := some (fun _ _ => 1025)
  g := none
  depth := none
  extra := fun _ => none

/-- `DXfull` with the `p_atmo` field removed. -/
def DXnoAtmo : Dataset := { DXfull with p_atmo := none }

/-- `DXfull` with the `rho_ocean` field removed. -/
def DXnoRho : Dataset := { DXfull with rho_ocean := none }

/-- `DXfull` with the `lat` field unset. -/
def DXnoLat : Dataset := { DXfull with lat := none }

/-- `DXfull` with both `p_atmo` and `lat` missing. -/
def DXnoAtmoNoLat : Dataset := { DXfull with p_atmo := none, lat := none }

/-! Helper lemmas shared by several claims. -/

/-- `depFinish` always returns normally. -/
theorem depFinish_err_none (DX : Dataset) (p_ocean : Arr) (g : ℚ) (rho : Arr)
    (note : String) : (depFinish DX p_ocean g rho note).err = none := rfl

/-- Inversion for a normal return of `depAfterAtm`: latitude was present, and
the result is `depFinish` of the dataset with `g` set, gravity `grav lat 0`,
some density, and the note extended by the gravity bullet and a density
bullet. -/
theorem depAfterAtm_ok_inv (grav : ℚ → ℚ → ℚ) (stdin : List String) (DX : Dataset)
    (p_ocean : Arr) (note : String) (atmInput : Option String)
    (h : (depAfterAtm grav stdin DX p_ocean note atmInput).err = none) :
    ∃ lat rho rhoNote, DX.lat = some lat ∧
      (rhoNote = noteRhoField ∨ rhoNote = noteRhoFixed) ∧
      depAfterAtm grav stdin DX p_ocean note atmInput =
        depFinish { DX with g := some ⟨grav lat 0, "ms-2", gFieldNote lat⟩ }
          p_ocean (grav lat 0) rho (note ++ noteG (grav lat 0) ++ rhoNote) := by
  obtain ⟨A, off, patm, latf, rhof, g0, d0, ex⟩ := DX
  cases latf with
  | none => exact absurd h (by simp [depAfterAtm])
  | some lat =>
      cases rhof with
      | some rhoArr => exact ⟨lat, rhoArr, noteRhoField, rfl, Or.inl rfl, rfl⟩
      | none =>
          cases hpr : promptRho atmInput stdin with
          | error e => exact absurd h (by simp [depAfterAtm, hpr])
          | ok pr =>
              obtain ⟨u, rest⟩ := pr
              by_cases hu : u = "A"
              · subst hu; exact absurd h (by simp [depAfterAtm, hpr])
              · refine ⟨lat, fun _ _ => 1027, noteRhoFixed, rfl, Or.inr rfl, ?_⟩
                simp [depAfterAtm, hpr, hu]

/-- Inversion for a normal return of `dep_from_p`: latitude was present and
the result is `depFinish` of the dataset with `g` set, with the provenance
note assembled from the header, an atmospheric bullet and a density bullet. -/
theorem dep_from_p_ok_inv (grav : ℚ → ℚ → ℚ) (stdin : List String) (DX : Dataset)
    (h : (dep_from_p grav stdin DX).err = none) :
    ∃ lat p_ocean atmNote rho rhoNote,
      DX.lat = some lat ∧
      (atmNote = noteAtmo ∨ atmNote = noteNoAtmo DX.pressure_offset) ∧
      (rhoNote = noteRhoField ∨ rhoNote = noteRhoFixed) ∧
      dep_from_p grav stdin DX =
        depFinish { DX with g := some ⟨grav lat 0, "ms-2", gFieldNote lat⟩ }
          p_ocean (grav lat 0) rho (noteHeader ++ atmNote ++ noteG (grav lat 0) ++ rhoNote) := by
  obtain ⟨A, off, patm, latf, rhof, g0, d0, ex⟩ := DX
  cases patm with
  | some pa =>
      obtain ⟨lat, rho, rhoNote, hlat, hrn, heq⟩ :=
        depAfterAtm_ok_inv grav stdin ⟨A, off, some pa, latf, rhof, g0, d0, ex⟩
          (fun t s => A t s + off - pa t s) (noteHeader ++ noteAtmo) none h
      exact ⟨lat, _, noteAtmo, rho, rhoNote, hlat, Or.inl rfl, hrn, heq⟩
  | none =>
      cases hac : promptAC stdin with
      | error e => exact absurd h (by simp [dep_from_p, hac])
      | ok pr =>
          obtain ⟨u, rest⟩ := pr
          by_cases hu : u = "A"
          · subst hu; exact absurd h (by simp [dep_from_p, hac])
          · have h' : (depAfterAtm grav rest ⟨A, off, none, latf, rhof, g0, d0, ex⟩
                A (noteHeader ++ noteNoAtmo off) (some u)).err = none := by
              simpa [dep_from_p, hac, hu] using h
            obtain ⟨lat, rho, rhoNote, hlat, hrn, heq⟩ :=
              depAfterAtm_ok_inv grav rest ⟨A, off, none, latf, rhof, g0, d0, ex⟩
                A (noteHeader ++ noteNoAtmo off) (some u) h'
            refine ⟨lat, A, noteNoAtmo off, rho, rhoNote, hlat, Or.inr rfl, hrn, ?_⟩
            calc dep_from_p grav stdin ⟨A, off, none, latf, rhof, g0, d0, ex⟩
                = depAfterAtm grav rest ⟨A, off, none, latf, rhof, g0, d0, ex⟩
                    A (noteHeader ++ noteNoAtmo off) (some u) := by
                  simp [dep_from_p, hac, hu]
              _ = _ := heq

/-- The normal/abnormal outcome of `dep_from_p` does not depend on any
pre-existing `g` or `depth` field of the dataset. -/
theorem dep_from_p_err_ignores_prior (grav : ℚ → ℚ → ℚ) (stdin : List String)
    (DX : Dataset) (g0 : Option ScalarField) (d0 : Option ArrayField) :
    (dep_from_p grav stdin { DX with g := g0, depth := d0 }).err =
      (dep_from_p grav stdin DX).err := by
  obtain ⟨A, off, patm, latf, rhof, gg, dd, ex⟩ := DX
  cases patm with
  | some pa =>
      cases latf with
      | none => rfl
      | some lat =>
          cases rhof with
          | some rho => rfl
          | none =>
              cases hpr : promptRho none stdin with
              | error e => simp [dep_from_p, depAfterAtm, hpr]
              | ok pr =>
                  obtain ⟨u, rest⟩ := pr
                  by_cases hu : u = "A" <;>
                    simp [dep_from_p, depAfterAtm, hpr, hu, depFinish]
  | none =>
      cases hac : promptAC stdin with
      | error e => simp [dep_from_p, hac]
      | ok pr =>
          obtain ⟨u, rest⟩ := pr
          by_cases hu : u = "A"
          · simp [dep_from_p, hac, hu]
          · cases latf with
            | none => simp [dep_from_p, hac, hu, depAfterAtm]
            | some lat =>
                cases rhof with
                | some rho => simp [dep_from_p, hac, hu, depAfterAtm, depFinish]
                | none =>
                    cases hpr : promptRho (some u) rest with
                    | error e => simp [dep_from_p, hac, hu, depAfterAtm, hpr]
                    | ok pr2 =>
                        obtain ⟨u2, r2⟩ := pr2
                        by_cases hu2 : u2 = "A" <;>
                          simp [dep_from_p, hac, hu, depAfterAtm, hpr, hu2, depFinish]

/-! Claim theorems. -/

/-- C9: `mat_to_py_time` is the affine transform `value - 719529.0`; in
particular `mat_to_py_time 719529 = 0` and `mat_to_py_time 719530 = 1`.
It is a plain total function of its argument (pure and stateless). -/
theorem mat_to_py_time_affine :
    (∀ x : ℚ, mat_to_py_time x = x - 719529) ∧
    mat_to_py_time 719529 = 0 ∧ mat_to_py_time 719530 = 1 :=
  ⟨fun _ => rfl, by norm_num [mat_to_py_time], by norm_num [mat_to_py_time]⟩

/-- C4: with `p_atmo` missing, if the operator answer resolved by the
atmospheric prompt is ABORT, the call raises the user-abort error and the
dataset is completely unchanged: in particular neither `g` nor `depth` was
added (the abort precedes the gravity computation). -/
theorem dep_from_p_atm_abort (grav : ℚ → ℚ → ℚ) (stdin rest : List String)
    (DX : Dataset) (hpa : DX.p_atmo = none)
    (ha : promptAC stdin = .ok ("A", rest)) :
    (dep_from_p grav stdin DX).err = some RunError.userAbortedAtm ∧
    (dep_from_p grav stdin DX).DX = DX ∧
    (dep_from_p grav stdin DX).DX.g = DX.g ∧
    (dep_from_p grav stdin DX).DX.depth = DX.depth := by
  obtain ⟨A, off, patm, latf, rhof, g0, d0, ex⟩ := DX
  cases patm with
  | some pa => exact absurd hpa (by simp)
  | none => refine ⟨?_, ?_, ?_, ?_⟩ <;> simp [dep_from_p, ha]

/-- C4 witness: the abort branch evaluated on a concrete dataset. -/
theorem dep_from_p_atm_abort_witness :
    DXnoAtmo.p_atmo = none ∧
    (dep_from_p gravSample ["A"] DXnoAtmo).err = some RunError.userAbortedAtm ∧
    (dep_from_p gravSample ["A"] DXnoAtmo).DX = DXnoAtmo ∧
    (dep_from_p gravSample ["A"] DXnoAtmo).DX.g = none := by
  have h := dep_from_p_atm_abort gravSample ["A"] [] DXnoAtmo rfl rfl
  exact ⟨rfl, h.1, h.2.1, h.2.2.1.trans rfl⟩

/-- C2 counterexample: a dataset with `lat` unset on which the call does
NOT raise the missing-latitude error: `p_atmo` is also missing and the
operator aborts at the atmospheric prompt, so the user-abort error is
raised instead. -/
theorem dep_from_p_missing_lat_cex :
    DXnoAtmoNoLat.lat = none ∧
    (dep_from_p gravSample ["A"] DXnoAtmoNoLat).err = some RunError.userAbortedAtm ∧
    (dep_from_p gravSample ["A"] DXnoAtmoNoLat).err ≠ some RunError.missingLat := by
  refine ⟨rfl, rfl, ?_⟩
  intro hc
  rw [show (dep_from_p gravSample ["A"] DXnoAtmoNoLat).err
      = some RunError.userAbortedAtm from rfl] at hc
  simp at hc

/-- C2 (amended): with `lat` unset, provided the atmospheric-pressure step
completes without aborting (`p_atmo` present, or the operator answer is
CONTINUE), the call raises the missing-latitude error and the dataset is
completely unmutated. -/
theorem dep_from_p_missing_lat (grav : ℚ → ℚ → ℚ) (stdin : List String)
    (DX : Dataset) (hlat : DX.lat = none)
    (hatm : DX.p_atmo.isSome = true ∨
      (DX.p_atmo = none ∧ ∃ rest, promptAC stdin = .ok ("C", rest))) :
    (dep_from_p grav stdin DX).err = some RunError.missingLat ∧
    (dep_from_p grav stdin DX).DX = DX := by
  obtain ⟨A, off, patm, latf, rhof, g0, d0, ex⟩ := DX
  cases latf with
  | some l => exact absurd hlat (by simp)
  | none =>
      cases patm with
      | some pa => exact ⟨rfl, rfl⟩
      | none =>
          rcases hatm with hs | ⟨-, rest, hc⟩
          · exact absurd hs (by simp)
          · refine ⟨?_, ?_⟩ <;> simp [dep_from_p, hc, depAfterAtm]

/-- C2 witness: the amended claim evaluated on a concrete dataset with
`p_atmo` present and `lat` unset. -/
theorem dep_from_p_missing_lat_witness :
    DXnoLat.lat = none ∧
    (dep_from_p gravSample [] DXnoLat).err = some RunError.missingLat ∧
    (dep_from_p gravSample [] DXnoLat).DX = DXnoLat := by
  have h := dep_from_p_missing_lat gravSample [] DXnoLat rfl (Or.inl rfl)
  exact ⟨rfl, h.1, h.2⟩

/-- C10: with both `p_atmo` and `lat` missing, the call consumes operator
input before the latitude check: on empty operator input it fails at
`input()` itself, an ABORT answer raises the user-abort error (the
missing-latitude error is never reached on that path), and only a CONTINUE
answer lets the missing-latitude error be raised. -/
theorem dep_from_p_atm_prompt_precedes_lat_check (grav : ℚ → ℚ → ℚ)
    (stdin : List String) (DX : Dataset)
    (hpa : DX.p_atmo = none) (hlat : DX.lat = none) :
    (dep_from_p grav [] DX).err = some RunError.eofError ∧
    (∀ rest, promptAC stdin = .ok ("A", rest) →
      (dep_from_p grav stdin DX).err = some RunError.userAbortedAtm) ∧
    (∀ rest, promptAC stdin = .ok ("C", rest) →
      (dep_from_p grav stdin DX).err = some RunError.missingLat) := by
  obtain ⟨A, off, patm, latf, rhof, g0, d0, ex⟩ := DX
  cases patm with
  | some pa => exact absurd hpa (by simp)
  | none =>
      cases latf with
      | some l => exact absurd hlat (by simp)
      | none =>
          refine ⟨rfl, fun rest ha => ?_, fun rest hc => ?_⟩
          · simp [dep_from_p, ha]
          · simp [dep_from_p, hc, depAfterAtm]

/-- C10 witness: the three branches evaluated on a concrete dataset. -/
theorem dep_from_p_atm_prompt_precedes_lat_check_witness :
    (dep_from_p gravSample [] DXnoAtmoNoLat).err = some RunError.eofError ∧
    (dep_from_p gravSample ["A"] DXnoAtmoNoLat).err = some RunError.userAbortedAtm ∧
    (dep_from_p gravSample ["C"] DXnoAtmoNoLat).err = some RunError.missingLat := by
  have h1 := dep_from_p_atm_prompt_precedes_lat_check gravSample ["A"] DXnoAtmoNoLat rfl rfl
  have h2 := dep_from_p_atm_prompt_precedes_lat_check gravSample ["C"] DXnoAtmoNoLat rfl rfl
  exact ⟨h1.1, h1.2.1 [] rfl, h2.2.2 [] rfl⟩

/-- C6: the code evaluated at the failing input.  With `p_atmo` present and
`rho_ocean` absent, a single invalid answer at the density prompt makes the
call fail with `nameError` (Python `UnboundLocalError`: the loop's error
echo evaluates `user_input_abort`, which was never assigned on this path)
instead of re-prompting; the same dataset with a valid first answer
succeeds. -/
theorem dep_from_p_density_echo_crash :
    DXnoRho.p_atmo.isSome = true ∧ DXnoRho.rho_ocean = none ∧
    (dep_from_p gravSample ["x", "C"] DXnoRho).err = some RunError.nameError ∧
    (dep_from_p gravSample ["C"] DXnoRho).err = none :=
  ⟨rfl, rfl, rfl, rfl⟩

/-- C1: with `p_atmo`, `rho_ocean` and `lat` all present, `dep_from_p`
returns normally, needs no operator interaction (the result is independent
of the operator input), `depth` equals
`1e4 * (Average_AltimeterPressure + pressure_offset - p_atmo) / grav(lat,0) / rho_ocean`
elementwise over (TIME, SAMPLE), `g` equals `grav(lat,0)`, and a second
call on the returned dataset reproduces identical `g` and `depth` values
(overwritten, not duplicated). -/
theorem dep_from_p_all_present (grav : ℚ → ℚ → ℚ) (stdin stdin2 : List String)
    (DX : Dataset) (pa : Arr) (lat : ℚ) (rho : Arr)
    (hpa : DX.p_atmo = some pa) (hlat : DX.lat = some lat)
    (hrho : DX.rho_ocean = some rho) :
    (dep_from_p grav stdin DX).err = none ∧
    dep_from_p grav stdin DX = dep_from_p grav stdin2 DX ∧
    (∃ df, (dep_from_p grav stdin DX).DX.depth = some df ∧
      ∀ t s, df.data t s =
        10000 * (DX.Average_AltimeterPressure t s + DX.pressure_offset - pa t s)
          / grav lat 0 / rho t s) ∧
    (∃ gf, (dep_from_p grav stdin DX).DX.g = some gf ∧ gf.data = grav lat 0) ∧
    (dep_from_p grav stdin2 (dep_from_p grav stdin DX).DX).DX.g
      = (dep_from_p grav stdin DX).DX.g ∧
    (dep_from_p grav stdin2 (dep_from_p grav stdin DX).DX).DX.depth
      = (dep_from_p grav stdin DX).DX.depth := by
  obtain ⟨A, off, patm, latf, rhof, g0, d0, ex⟩ := DX
  cases patm with
  | none => exact absurd hpa (by simp)
  | some pa' =>
      cases latf with
      | none => exact absurd hlat (by simp)
      | some lat' =>
          cases rhof with
          | none => exact absurd hrho (by simp)
          | some rho' =>
              obtain rfl : pa' = pa := by simpa using hpa
              obtain rfl : lat' = lat := by simpa using hlat
              obtain rfl : rho' = rho := by simpa using hrho
              exact ⟨rfl, rfl, ⟨_, rfl, fun t s => rfl⟩, ⟨_, rfl, rfl⟩, rfl, rfl⟩

/-- C1 witness: concrete run; the two input sequences compared differ. -/
theorem dep_from_p_all_present_witness :
    DXfull.p_atmo = some (fun _ _ => 1/20) ∧
    (dep_from_p gravSample [] DXfull).err = none ∧
    dep_from_p gravSample [] DXfull = dep_from_p gravSample ["A"] DXfull := by
  have h := dep_from_p_all_present gravSample [] ["A"] DXfull
    (fun _ _ => 1/20) 60 (fun _ _ => 1025) rfl rfl rfl
  exact ⟨rfl, h.1, h.2.1⟩

/-- C3: with `p_atmo` missing and the atmospheric prompt resolving to
CONTINUE (and `lat` and `rho_ocean` present so the call completes),
`depth` is computed from the raw `Average_AltimeterPressure` (the
`pressure_offset` addition of `p_abs` is skipped in this branch), the `g`
field is still set, and the provenance note carries the bullet flagging
that no time-varying atmospheric correction was applied, with the numeric
`pressure_offset` value rendered in it. -/
theorem dep_from_p_no_atmo_continue (grav : ℚ → ℚ → ℚ) (stdin rest : List String)
    (DX : Dataset) (lat : ℚ) (rho : Arr)
    (hpa : DX.p_atmo = none) (hc : promptAC stdin = .ok ("C", rest))
    (hlat : DX.lat = some lat) (hrho : DX.rho_ocean = some rho) :
    (dep_from_p grav stdin DX).err = none ∧
    (dep_from_p grav stdin DX).DX.g = some ⟨grav lat 0, "ms-2", gFieldNote lat⟩ ∧
    ∃ df, (dep_from_p grav stdin DX).DX.depth = some df ∧
      (∀ t s, df.data t s =
        10000 * DX.Average_AltimeterPressure t s / grav lat 0 / rho t s) ∧
      df.note = noteHeader ++ noteNoAtmo DX.pressure_offset
        ++ noteG (grav lat 0) ++ noteRhoField := by
  obtain ⟨A, off, patm, latf, rhof, g0, d0, ex⟩ := DX
  cases patm with
  | some pa => exact absurd hpa (by simp)
  | none =>
      cases latf with
      | none => exact absurd hlat (by simp)
      | some lat' =>
          cases rhof with
          | none => exact absurd hrho (by simp)
          | some rho' =>
              obtain rfl : lat' = lat := by simpa using hlat
              obtain rfl : rho' = rho := by simpa using hrho
              refine ⟨?_, ?_, ?_⟩ <;> simp [dep_from_p, hc, depAfterAtm, depFinish]

/-- C3 witness: concrete run with a lowercase continue answer. -/
theorem dep_from_p_no_atmo_continue_witness :
    DXnoAtmo.p_atmo = none ∧ promptAC ["c"] = .ok ("C", []) ∧
    (dep_from_p gravSample ["c"] DXnoAtmo).err = none ∧
    (dep_from_p gravSample ["c"] DXnoAtmo).DX.g
      = some ⟨gravSample 60 0, "ms-2", gFieldNote 60⟩ := by
  have h := dep_from_p_no_atmo_continue gravSample ["c"] [] DXnoAtmo 60
    (fun _ _ => 1025) rfl rfl rfl rfl
  exact ⟨rfl, rfl, h.1, h.2.1⟩

/-- C5: density resolution with `p_atmo` and `lat` present: a present
`rho_ocean` field is used directly; with `rho_ocean` missing, a CONTINUE
answer at the density prompt uses the fixed constant 1027 and an ABORT
answer raises the user-abort error at a point where the `g` field has
already been set on the dataset while `depth` has not. -/
theorem dep_from_p_density_policy (grav : ℚ → ℚ → ℚ) (stdin : List String)
    (DX : Dataset) (pa : Arr) (lat : ℚ)
    (hpa : DX.p_atmo = some pa) (hlat : DX.lat = some lat) :
    (∀ rho, DX.rho_ocean = some rho →
      (dep_from_p grav stdin DX).err = none ∧
      ∃ df, (dep_from_p grav stdin DX).DX.depth = some df ∧
        ∀ t s, df.data t s =
          10000 * (DX.Average_AltimeterPressure t s + DX.pressure_offset - pa t s)
            / grav lat 0 / rho t s) ∧
    (DX.rho_ocean = none →
      (∀ rest, promptRho none stdin = .ok ("C", rest) →
        (dep_from_p grav stdin DX).err = none ∧
        ∃ df, (dep_from_p grav stdin DX).DX.depth = some df ∧
          ∀ t s, df.data t s =
            10000 * (DX.Average_AltimeterPressure t s + DX.pressure_offset - pa t s)
              / grav lat 0 / 1027) ∧
      (∀ rest, promptRho none stdin = .ok ("A", rest) →
        (dep_from_p grav stdin DX).err = some RunError.userAbortedRho ∧
        (dep_from_p grav stdin DX).DX.g
          = some ⟨grav lat 0, "ms-2", gFieldNote lat⟩ ∧
        (dep_from_p grav stdin DX).DX.depth = DX.depth)) := by
  obtain ⟨A, off, patm, latf, rhof, g0, d0, ex⟩ := DX
  cases patm with
  | none => exact absurd hpa (by simp)
  | some pa' =>
      cases latf with
      | none => exact absurd hlat (by simp)
      | some lat' =>
          obtain rfl : pa' = pa := by simpa using hpa
          obtain rfl : lat' = lat := by simpa using hlat
          refine ⟨fun rho hrho => ?_, fun hrho => ⟨fun rest hc => ?_, fun rest ha => ?_⟩⟩
          · cases rhof with
            | none => exact absurd hrho (by simp)
            | some rho' =>
                obtain rfl : rho' = rho := by simpa using hrho
                exact ⟨rfl, _, rfl, fun t s => rfl⟩
          · cases rhof with
            | some rho' => exact absurd hrho (by simp)
            | none =>
                refine ⟨?_, ?_⟩ <;>
                  simp [dep_from_p, depAfterAtm, hc, depFinish]
          · cases rhof with
            | some rho' => exact absurd hrho (by simp)
            | none =>
                refine ⟨?_, ?_, ?_⟩ <;>
                  simp [dep_from_p, depAfterAtm, ha, depFinish]

/-- C5 witness: all three density branches evaluated concretely; on the
abort branch `g` is set while `depth` is not. -/
theorem dep_from_p_density_policy_witness :
    (dep_from_p gravSample [] DXfull).err = none ∧
    (dep_from_p gravSample ["C"] DXnoRho).err = none ∧
    (dep_from_p gravSample ["A"] DXnoRho).err = some RunError.userAbortedRho ∧
    (dep_from_p gravSample ["A"] DXnoRho).DX.g
      = some ⟨gravSample 60 0, "ms-2", gFieldNote 60⟩ ∧
    (dep_from_p gravSample ["A"] DXnoRho).DX.depth = none := by
  have h1 := dep_from_p_density_policy gravSample [] DXfull
    (fun _ _ => 1/20) 60 rfl rfl
  have h2 := dep_from_p_density_policy gravSample ["C"] DXnoRho
    (fun _ _ => 1/20) 60 rfl rfl
  have h3 := dep_from_p_density_policy gravSample ["A"] DXnoRho
    (fun _ _ => 1/20) 60 rfl rfl
  refine ⟨(h1.1 _ rfl).1, ((h2.2 rfl).1 [] rfl).1, ?_, ?_, ?_⟩
  · exact ((h3.2 rfl).2 [] rfl).1
  · exact ((h3.2 rfl).2 [] rfl).2.1
  · exact ((h3.2 rfl).2 [] rfl).2.2.trans rfl

/-- C7 counterexample: on a concrete successful call the `g` field's
`units` metadata string is `"ms-2"`, which is not the claimed `"m/s^2"`. -/
theorem dep_from_p_g_units_cex :
    (dep_from_p gravSample [] DXfull).err = none ∧
    ((dep_from_p gravSample [] DXfull).DX.g.map ScalarField.units) = some "ms-2" ∧
    ("ms-2" : String) ≠ "m/s^2" :=
  ⟨rfl, rfl, by decide⟩

/-- C7 (amended): on every successful call the `g` field carries units
`"ms-2"` (not `"m/s^2"`) and the note naming `gsw.grav()` with p=0 and the
latitude value; the provenance note records the computed `g` value to 4
decimal places (the `noteG` bullet); and the `depth` field carries units
`"m"`, long_name `"Transducer depth"` and the accumulated provenance
text (header, atmospheric bullet, gravity bullet, density bullet). -/
theorem dep_from_p_metadata (grav : ℚ → ℚ → ℚ) (stdin : List String)
    (DX : Dataset) (h : (dep_from_p grav stdin DX).err = none) :
    ∃ lat atmNote rhoNote,
      DX.lat = some lat ∧
      (atmNote = noteAtmo ∨ atmNote = noteNoAtmo DX.pressure_offset) ∧
      (rhoNote = noteRhoField ∨ rhoNote = noteRhoFixed) ∧
      (dep_from_p grav stdin DX).DX.g
        = some ⟨grav lat 0, "ms-2", gFieldNote lat⟩ ∧
      ∃ df, (dep_from_p grav stdin DX).DX.depth = some df ∧
        df.units = "m" ∧ df.long_name = "Transducer depth" ∧
        df.note = noteHeader ++ atmNote ++ noteG (grav lat 0) ++ rhoNote := by
  obtain ⟨lat, p_ocean, atmNote, rho, rhoNote, hlat, ha, hr, heq⟩ :=
    dep_from_p_ok_inv grav stdin DX h
  refine ⟨lat, atmNote, rhoNote, hlat, ha, hr, ?_, ?_⟩
  · rw [heq]; rfl
  · exact ⟨_, by rw [heq]; rfl, rfl, rfl, rfl⟩

/-- C7 witness: the amended metadata claim evaluated on a concrete run. -/
theorem dep_from_p_metadata_witness :
    (dep_from_p gravSample [] DXfull).err = none ∧
    ((dep_from_p gravSample [] DXfull).DX.g.map ScalarField.units)
      = some "ms-2" ∧
    ((dep_from_p gravSample [] DXfull).DX.depth.map ArrayField.units)
      = some "m" ∧
    ((dep_from_p gravSample [] DXfull).DX.depth.map ArrayField.long_name)
      = some "Transducer depth" := by
  obtain ⟨lat, atmNote, rhoNote, hlat, ha, hr, hg, df, hdf, hu, hl, hn⟩ :=
    dep_from_p_metadata gravSample [] DXfull rfl
  refine ⟨rfl, ?_, ?_, ?_⟩
  · rw [hg]; rfl
  · rw [hdf]; simp [hu]
  · rw [hdf]; simp [hl]

/-- C8: on every successful call the returned dataset keeps every input
field (`Average_AltimeterPressure`, `pressure_offset`, `p_atmo`, `lat`,
`rho_ocean`) and every other pre-existing field (`extra`) unchanged — no
field is deleted — while `g` and `depth` are set; and the call's outcome
is unchanged if `g` and `depth` already existed beforehand (they are
overwritten without error). -/
theorem dep_from_p_frame (grav : ℚ → ℚ → ℚ) (stdin : List String)
    (DX : Dataset) (h : (dep_from_p grav stdin DX).err = none) :
    (dep_from_p grav stdin DX).DX.Average_AltimeterPressure
      = DX.Average_AltimeterPressure ∧
    (dep_from_p grav stdin DX).DX.pressure_offset = DX.pressure_offset ∧
    (dep_from_p grav stdin DX).DX.p_atmo = DX.p_atmo ∧
    (dep_from_p grav stdin DX).DX.lat = DX.lat ∧
    (dep_from_p grav stdin DX).DX.rho_ocean = DX.rho_ocean ∧
    (dep_from_p grav stdin DX).DX.extra = DX.extra ∧
    (dep_from_p grav stdin DX).DX.g.isSome = true ∧
    (dep_from_p grav stdin DX).DX.depth.isSome = true ∧
    (∀ g0 d0,
      (dep_from_p grav stdin { DX with g := g0, depth := d0 }).err = none) := by
  obtain ⟨lat, p_ocean, atmNote, rho, rhoNote, hlat, ha, hr, heq⟩ :=
    dep_from_p_ok_inv grav stdin DX h
  refine ⟨?_, ?_, ?_, ?_, ?_, ?_, ?_, ?_, fun g0 d0 => ?_⟩
  · rw [heq]; rfl
  · rw [heq]; rfl
  · rw [heq]; rfl
  · rw [heq]; rfl
  · rw [heq]; rfl
  · rw [heq]; rfl
  · rw [heq]; rfl
  · rw [heq]; rfl
  · rw [dep_from_p_err_ignores_prior]; exact h

/-- C8 witness: the frame property evaluated on a concrete run, including
a call with pre-existing `g` and `depth` fields. -/
theorem dep_from_p_frame_witness :
    (dep_from_p gravSample [] DXfull).DX.extra = DXfull.extra ∧
    (dep_from_p gravSample [] DXfull).DX.g.isSome = true ∧
    (dep_from_p gravSample [] DXfull).DX.depth.isSome = true ∧
    (dep_from_p gravSample []
      { DXfull with g := some ⟨1, "u", "n"⟩,
                    depth := some ⟨fun _ _ => 0, "u", "l", "n"⟩ }).err = none := by
  have h := dep_from_p_frame gravSample [] DXfull rfl
  exact ⟨h.2.2.2.2.2.1, h.2.2.2.2.2.2.1, h.2.2.2.2.2.2.2.1,
    h.2.2.2.2.2.2.2.2 (some ⟨1, "u", "n"⟩) (some ⟨fun _ _ => 0, "u", "l", "n"⟩)⟩
